import Mathlib

/-!
Verification of the specification of cucim's intensity scaling operation
against a shallow embedding of
`src/python/cucim/src/cucim/core/operations/intensity/scaling.py`
(`scale_intensity_range`).

Modelling conventions:
* Python floats and 32-bit-float buffer elements are embedded as exact
  rationals (`ℚ`); rounding is idealized away, the standard idealization
  for claims that are not about rounding error.
* The infinite clamp sentinels `float('inf')` / `float('-inf')` that the
  code installs when `clip` is false are embedded as `none` bounds of the
  clamp: a `none` lower bound behaves exactly like `-∞` under `max`, a
  `none` upper bound exactly like `+∞` under `min`.
* numpy/cupy arrays are records carrying dtype, shape, flat contents,
  contiguity flag, an abstract buffer address and a memory location
  (host = numpy, device = cupy).  Buffer allocation is modelled by
  threading a fresh-address counter, and the addresses the pipeline
  writes to are logged in the result, so that no-mutation / no-aliasing
  claims are statable.
* The compiled CUDA kernel `scaleVolume` is not part of the translated
  source file; its per-element body is modelled from the spec (see
  `clampQ` and the launch-validity guard below).
-/

namespace CucimScaling

/-- Element types of numpy/cupy arrays that the embedding distinguishes. -/
inductive DType where
  | float32
  | float64
  | float16
  | int8
  | uint8
  | int16
  | int32
  | int64
  | boolT
  deriving DecidableEq

/-- Memory location of a buffer: host (`numpy.ndarray`) or accelerator
(`cupy.ndarray`). -/
inductive Loc where
  | host
  | device
  deriving DecidableEq

/-- An array value: dtype, shape, flat (C-order) contents, contiguity flag,
abstract buffer address and memory location. -/
structure Arr where
  dtype : DType
  shape : List Nat
  content : List ℚ
  contig : Bool
  addr : Nat
  loc : Loc
  deriving DecidableEq

/-- A Python value passed as `img`: either a recognized array
(numpy/cupy ndarray) or anything else (scalar, string, ...). -/
inductive Input where
  | array : Arr → Input
  | nonArray : Input
  deriving DecidableEq

/-- Error classes raised by the operation, following the spec's taxonomy:
`rangeError` embeds Python `ValueError` (degenerate range, unsafe cast),
`configError` embeds Python `TypeError` (unrecognized input type),
`launchError` embeds a fatal kernel-launch failure. -/
inductive Err where
  | rangeError
  | configError
  | launchError
  deriving DecidableEq

/-- Embedding of `cupy.can_cast(dtype, cupy.float32)` with the default
"safe" casting rule of numpy/cupy. -/
def canCastF32 : DType → Bool
  | .float32 => true
  | .float16 => true
  | .int8 => true
  | .uint8 => true
  | .int16 => true
  | .boolT => true
  | .float64 => false
  | .int32 => false
  | .int64 => false

/-- Truncation toward zero of a rational, the behaviour of Python's
`int()` on a float. -/
def truncQ (q : ℚ) : ℤ :=
  if 0 ≤ q then ⌊q⌋ else ⌈q⌉

/-- Modelled from the spec: the array library's standard float→original-type
conversion rules used by the Result Rehydrator's cast-back step
(`result.astype(img.dtype)`, an external cupy primitive whose body is not
part of the translated source).  Float targets keep the exact value (the
embedding idealizes float precision); integer targets truncate toward zero
and wrap modulo 2^bits (C-style conversion); bool maps nonzero to 1. -/
def castBack : DType → ℚ → ℚ
  | .float32, q => q
  | .float64, q => q
  | .float16, q => q
  | .int8, q => (((truncQ q + 128) % 256 - 128 : ℤ) : ℚ)
  | .uint8, q => ((truncQ q % 256 : ℤ) : ℚ)
  | .int16, q => (((truncQ q + 32768) % 65536 - 32768 : ℤ) : ℚ)
  | .int32, q => (((truncQ q + 2147483648) % 4294967296 - 2147483648 : ℤ) : ℚ)
  | .int64, q =>
      (((truncQ q + 9223372036854775808) % 18446744073709551616
        - 9223372036854775808 : ℤ) : ℚ)
  | .boolT, q => if q = 0 then 0 else 1

/-- Whether a rational is a value representable in the given dtype
(used as the well-formedness condition tying an array's contents to its
declared element type). -/
def inRangeB : DType → ℚ → Bool
  | .float32, _ => true
  | .float64, _ => true
  | .float16, _ => true
  | .int8, q => q.den == 1 && decide (-128 ≤ q.num) && decide (q.num ≤ 127)
  | .uint8, q => q.den == 1 && decide (0 ≤ q.num) && decide (q.num ≤ 255)
  | .int16, q => q.den == 1 && decide (-32768 ≤ q.num) && decide (q.num ≤ 32767)
  | .int32, q =>
      q.den == 1 && decide (-2147483648 ≤ q.num) && decide (q.num ≤ 2147483647)
  | .int64, q =>
      q.den == 1 && decide (-9223372036854775808 ≤ q.num)
        && decide (q.num ≤ 9223372036854775807)
  | .boolT, q => q == 0 || q == 1

/-- Well-formed array: flat contents have exactly `shape.prod` elements and
every element is representable in the declared dtype. -/
def Arr.wf (a : Arr) : Prop :=
  a.content.length = a.shape.prod ∧ ∀ q ∈ a.content, inRangeB a.dtype q = true

/-- Modelled from the spec: the per-element clamp applied by the compiled
kernel `scaleVolume` (whose CUDA body is not part of the translated source):
`clamp(v, lower, upper) = min(max(v, lower), upper)`, where a `none` lower
bound stands for `-∞` (so `max` is a no-op) and a `none` upper bound stands
for `+∞` (so `min` is a no-op). -/
def clampQ (v : ℚ) (lower upper : Option ℚ) : ℚ :=
  let w := match lower with
    | some l => max v l
    | none => v
  match upper with
  | some u => min w u
  | none => w

/-- Embedding of the input-dispatch part of the normalizer
(scaling.py lines 79-89): a numpy input is copied to the device as a
contiguous float32 buffer (`cupy.asarray(img, dtype=cupy.float32,
order='C')`), recording `to_cupy = True`; a cupy input is made contiguous
(`cupy.ascontiguousarray`, which returns the input itself when it is
already contiguous).  Returns (working array, to_cupy flag, next fresh
address, addresses written so far). -/
def ensureDevice (a : Arr) (fresh : Nat) : Arr × Bool × Nat × List Nat :=
  match a.loc with
  | Loc.host =>
      (⟨DType.float32, a.shape, a.content, true, fresh, Loc.device⟩,
       true, fresh + 1, [fresh])
  | Loc.device =>
      match a.contig with
      | true => (a, false, fresh, [])
      | false =>
          ({ a with contig := true, addr := fresh }, false, fresh + 1, [fresh])

/-- Embedding of the dtype check of the normalizer (scaling.py lines 91-97):
when the working buffer is not float32, verify
`cupy.can_cast(img.dtype, cupy.float32)` (note the source consults the
original `img.dtype`) and convert with `astype` (a fresh buffer), else
raise `ValueError`. -/
def ensureF32 (origDtype : DType) (c : Arr) (fresh : Nat) :
    Except Err (Arr × Nat × List Nat) :=
  if c.dtype = DType.float32 then Except.ok (c, fresh, [])
  else if canCastF32 origDtype then
    Except.ok ({ c with dtype := DType.float32, addr := fresh },
               fresh + 1, [fresh])
  else Except.error Err.rangeError

/-- Observable outcome of a successful call: the returned array, plus the
kernel-launch observables (the float32 buffer the kernel wrote, the total
element count, grid/block dimensions) and the log of buffer addresses the
pipeline wrote to. -/
structure Result where
  out : Arr
  kernelOut : List ℚ
  totalSize : Nat
  gridDim : ℤ × Nat × Nat
  blockDim : Nat × Nat × Nat
  writes : List Nat
  deriving DecidableEq

/-- Embedding of the body of `scale_intensity_range` after the degenerate
range check and the input-type dispatch (scaling.py lines 79-122):
normalization, coefficient derivation (`x`, `y` from the original
parameters, then the clamp bounds widened to infinities when `clip` is
false), launch-geometry computation (`blockx = 128`,
`gridx = int((total_size - 1) / blockx + 1)`), the kernel pass over a
freshly allocated output buffer, cast back to the original dtype and copy
back to host when the input was a numpy array.  The guard rejecting a
non-positive grid width is modelled from the spec (an invalid launch
geometry is a fatal `LaunchError`; the accelerator rejects a launch whose
grid width is not at least 1). -/
def scaleArr (a : Arr) (b_max b_min a_max a_min : ℚ) (clip : Bool)
    (fresh : Nat) : Except Err Result :=
  let dev := ensureDevice a fresh
  let cimg := dev.1
  let toCupy := dev.2.1
  let f1 := dev.2.2.1
  let w1 := dev.2.2.2
  match ensureF32 a.dtype cimg f1 with
  | Except.error e => Except.error e
  | Except.ok (work, f2, w2) =>
      let x := (b_max - b_min) / (a_max - a_min)
      let y := a_min * x - b_min
      let lower : Option ℚ := if clip then some b_min else none
      let upper : Option ℚ := if clip then some b_max else none
      let n := a.shape.prod
      let gridx := truncQ (((n : ℚ) - 1) / 128 + 1)
      if gridx ≤ 0 then Except.error Err.launchError
      else
        let ker := work.content.map (fun v => clampQ (v * x - y) lower upper)
        let rehydrated :=
          if a.dtype = DType.float32 then
            (⟨DType.float32, a.shape, ker, true, f2, Loc.device⟩,
             w1 ++ w2 ++ [f2])
          else
            (⟨a.dtype, a.shape, ker.map (castBack a.dtype), true, f2 + 1,
              Loc.device⟩,
             w1 ++ w2 ++ [f2, f2 + 1])
        let final :=
          if toCupy then
            ({ rehydrated.1 with loc := Loc.host, addr := rehydrated.1.addr + 1 },
             rehydrated.2 ++ [rehydrated.1.addr + 1])
          else rehydrated
        Except.ok
          { out := final.1, kernelOut := ker, totalSize := n,
            gridDim := (gridx, 1, 1), blockDim := (128, 1, 1),
            writes := final.2 }

/-- Embedding of `scale_intensity_range` (scaling.py lines 27-122): the
degenerate-range check comes first (`a_max - a_min == 0.0`), then the
input-type dispatch (`TypeError` for values that are neither numpy nor
cupy arrays), then the pipeline `scaleArr`.  `fresh` is the first unused
abstract buffer address. -/
def scale_intensity_range (img : Input) (b_max b_min a_max a_min : ℚ)
    (clip : Bool) (fresh : Nat) : Except Err Result :=
  if a_max - a_min = 0 then Except.error Err.rangeError
  else
    match img with
    | Input.nonArray => Except.error Err.configError
    | Input.array a => scaleArr a b_max b_min a_max a_min clip fresh

/-- Helper projecting a successful result, with a default for the error
case. -/
def getOk (d : Result) : Except Err Result → Result
  | Except.ok r => r
  | Except.error _ => d

/-- Helper: whether an `Except` outcome is a success. -/
def exceptOk : Except Err Result → Bool
  | Except.ok _ => true
  | Except.error _ => false

/-- A throwaway default result used with `getOk`. -/
def junkResult : Result :=
  { out := ⟨DType.float32, [], [], true, 0, Loc.device⟩, kernelOut := [],
    totalSize := 0, gridDim := (0, 1, 1), blockDim := (0, 0, 0), writes := [] }

/-- Truncation toward zero of an integer-valued rational is that integer. -/
theorem truncQ_intCast (z : ℤ) : truncQ (z : ℚ) = z := by
  unfold truncQ
  split <;> simp

/-- The cast back to the original dtype is the identity on values that were
representable in that dtype in the first place. -/
theorem castBack_id (d : DType) (q : ℚ) (h : inRangeB d q = true) :
    castBack d q = q := by
  cases d
  case float32 => rfl
  case float64 => rfl
  case float16 => rfl
  case boolT =>
    simp only [inRangeB, Bool.or_eq_true, beq_iff_eq] at h
    rcases h with h | h <;> simp [castBack, h]
  all_goals
    simp only [inRangeB, Bool.and_eq_true, beq_iff_eq, decide_eq_true_eq] at h
  all_goals
    obtain ⟨⟨hd, h1⟩, h2⟩ := h
  all_goals
    have hzq : ((q.num : ℤ) : ℚ) = q := (Rat.den_eq_one_iff q).mp hd
  all_goals
    have ht : truncQ q = q.num := by
      conv_lhs => rw [← hzq]
      rw [truncQ_intCast]
  all_goals
    simp only [castBack, ht]
  all_goals
    rw [← hzq]
  all_goals
    exact_mod_cast congrArg (fun z : ℤ => (z : ℚ)) (by omega)

/-- With both clamp bounds disabled (the `clip = false` sentinels), the
clamp is the identity. -/
theorem clampQ_none (v : ℚ) : clampQ v none none = v := rfl

/-- With finite bounds, the clamped value lies between the smaller and the
larger of the two bounds, whatever their order. -/
theorem clampQ_mem (v l u : ℚ) :
    min l u ≤ clampQ v (some l) (some u) ∧ clampQ v (some l) (some u) ≤ max l u := by
  unfold clampQ
  constructor
  · exact le_min (le_trans (min_le_left l u) (le_max_right v l)) (min_le_right _ u)
  · exact le_trans (min_le_right _ u) (le_max_right l u)

/-- The grid-width computation `int((total_size - 1) / 128 + 1)` of the
source equals the ceiling of `total_size / 128`. -/
theorem gridx_ceil (n : ℕ) :
    truncQ (((n : ℚ) - 1) / 128 + 1) = ⌈(n : ℚ) / 128⌉ := by
  have h0 : (0:ℚ) ≤ ((n : ℚ) - 1) / 128 + 1 := by
    have hn : (0:ℚ) ≤ (n:ℚ) := Nat.cast_nonneg n
    nlinarith
  rw [truncQ, if_pos h0]
  have hq : ((n : ℚ) - 1) / 128 + 1 = ((n : ℚ) + 127) / 128 := by ring
  rw [hq]
  have h128 : (0:ℚ) < 128 := by norm_num
  have hdiv : (n : ℚ) / 128 * 128 = (n : ℚ) := by field_simp
  set k : ℤ := ⌈(n : ℚ) / 128⌉ with hk
  have h1 : (n : ℚ) / 128 ≤ (k : ℚ) := Int.le_ceil _
  have h2 : (k : ℚ) < (n : ℚ) / 128 + 1 := Int.ceil_lt_add_one _
  have h1a : (n : ℚ) ≤ 128 * (k:ℚ) := by nlinarith
  have h2a : 128 * (k : ℚ) < (n : ℚ) + 128 := by nlinarith
  have hzn : (n : ℤ) ≤ 128 * k := by exact_mod_cast h1a
  have hzn2 : 128 * k < (n : ℤ) + 128 := by exact_mod_cast h2a
  rw [Int.floor_eq_iff]
  constructor
  · rw [le_div_iff₀ h128]
    have hi : 128 * k ≤ (n:ℤ) + 127 := by omega
    have hi2 : 128 * (k:ℚ) ≤ (n:ℚ) + 127 := by exact_mod_cast hi
    linarith
  · rw [div_lt_iff₀ h128]
    have hi : (n:ℤ) + 127 < 128 * (k + 1) := by omega
    have hi2 : (n:ℚ) + 127 < 128 * ((k:ℚ) + 1) := by exact_mod_cast hi
    linarith

/-- Characterization of every successful run of the pipeline body: the
returned array keeps the input's shape, dtype and memory location; the
launch observables are the flat element count, the source's grid width and
the fixed 1-D block of 128; the kernel output is the elementwise clamped
affine image of the input contents with the coefficients derived from the
original parameters; the returned contents are the kernel output, cast
back when the original dtype was not float32; and every buffer the
pipeline writes to (the returned one included) is freshly allocated. -/
theorem scaleArr_ok (a : Arr) (b_max b_min a_max a_min : ℚ) (clip : Bool)
    (fresh : Nat) (r : Result)
    (h : scaleArr a b_max b_min a_max a_min clip fresh = Except.ok r) :
    r.out.shape = a.shape ∧ r.out.dtype = a.dtype ∧ r.out.loc = a.loc ∧
    r.totalSize = a.shape.prod ∧
    r.gridDim = (truncQ (((a.shape.prod : ℚ) - 1) / 128 + 1), 1, 1) ∧
    r.blockDim = (128, 1, 1) ∧
    r.kernelOut = a.content.map (fun v =>
      clampQ (v * ((b_max - b_min) / (a_max - a_min))
        - (a_min * ((b_max - b_min) / (a_max - a_min)) - b_min))
        (if clip then some b_min else none) (if clip then some b_max else none)) ∧
    r.out.content = (if a.dtype = DType.float32 then r.kernelOut
                     else r.kernelOut.map (castBack a.dtype)) ∧
    (∀ w ∈ r.writes, fresh ≤ w) ∧ fresh ≤ r.out.addr := by
  obtain ⟨dt, sh, ct, cg, ad, lc⟩ := a
  cases lc <;> cases cg <;>
    simp only [scaleArr, ensureDevice, ensureF32] at h <;>
    split_ifs at h <;>
    first
      | exact (Except.noConfusion h)
      | (simp only [Except.ok.injEq] at h; subst h; simp_all; try omega)

/-- A successful call on an array input means the degenerate-range check
passed and the pipeline body succeeded. -/
theorem scale_ok_bridge (a : Arr) (b_max b_min a_max a_min : ℚ) (clip : Bool)
    (fresh : Nat) (r : Result)
    (h : scale_intensity_range (Input.array a) b_max b_min a_max a_min clip
          fresh = Except.ok r) :
    scaleArr a b_max b_min a_max a_min clip fresh = Except.ok r ∧
    a_max - a_min ≠ 0 := by
  by_cases hz : a_max - a_min = 0
  · rw [scale_intensity_range, if_pos hz] at h
    exact (Except.noConfusion h)
  · rw [scale_intensity_range, if_neg hz] at h
    exact ⟨h, hz⟩


/-- Claim C1: for every input array accepted without error, the operation
computes x = (b_max - b_min) / (a_max - a_min) and y = a_min * x - b_min
from the original parameter values, sets the clamp bounds to
(b_min, b_max) when clip is true and to (-infinity, +infinity) when clip
is false (`none` bounds in this embedding), and the kernel output at every
linear index i in [0, total_size) equals clamp(in[i] * x - y, lower,
upper), where total_size is the product of the shape dimensions. -/
theorem c1_kernel_formula (a : Arr) (b_max b_min a_max a_min : ℚ)
    (clip : Bool) (fresh : Nat) (r : Result) (hwf : a.wf)
    (h : scale_intensity_range (Input.array a) b_max b_min a_max a_min clip
          fresh = Except.ok r) :
    r.totalSize = a.shape.prod ∧
    r.kernelOut.length = r.totalSize ∧
    ∀ i, i < r.totalSize →
      r.kernelOut.getD i 0 =
        clampQ ((a.content.getD i 0) * ((b_max - b_min) / (a_max - a_min))
                 - (a_min * ((b_max - b_min) / (a_max - a_min)) - b_min))
               (if clip then some b_min else none)
               (if clip then some b_max else none) := by
  obtain ⟨hb, -⟩ := scale_ok_bridge a b_max b_min a_max a_min clip fresh r h
  obtain ⟨-, -, -, hts, -, -, hker, -⟩ :=
    scaleArr_ok a b_max b_min a_max a_min clip fresh r hb
  have hlen : a.content.length = a.shape.prod := hwf.1
  refine ⟨hts, ?_, ?_⟩
  · rw [hker, List.length_map, hlen, hts]
  · intro i hi
    have hi2 : i < a.content.length := by rw [hlen]; rw [hts] at hi; exact hi
    rw [hker, List.getD_eq_getElem?_getD, List.getElem?_map,
        List.getElem?_eq_getElem hi2]
    simp only [Option.map_some', Option.getD_some]
    rw [List.getD_eq_getElem?_getD, List.getElem?_eq_getElem hi2,
        Option.getD_some]

/-- Concrete instantiation of `c1_kernel_formula`: a device float32 array
of shape [2] and contents [3, 4], scaled from [0, 2] to [0, 1] with
clip on. -/
theorem c1_kernel_formula_witness :
    ({ out := ⟨DType.float32, [2], [1, 1], true, 1, Loc.device⟩,
       kernelOut := [1, 1], totalSize := 2, gridDim := (1, 1, 1),
       blockDim := (128, 1, 1), writes := [1] } : Result).totalSize =
      (⟨DType.float32, [2], [3, 4], true, 0, Loc.device⟩ : Arr).shape.prod ∧
    ({ out := ⟨DType.float32, [2], [1, 1], true, 1, Loc.device⟩,
       kernelOut := [1, 1], totalSize := 2, gridDim := (1, 1, 1),
       blockDim := (128, 1, 1), writes := [1] } : Result).kernelOut.length =
      ({ out := ⟨DType.float32, [2], [1, 1], true, 1, Loc.device⟩,
         kernelOut := [1, 1], totalSize := 2, gridDim := (1, 1, 1),
         blockDim := (128, 1, 1), writes := [1] } : Result).totalSize ∧
    ∀ i, i < ({ out := ⟨DType.float32, [2], [1, 1], true, 1, Loc.device⟩,
                kernelOut := [1, 1], totalSize := 2, gridDim := (1, 1, 1),
                blockDim := (128, 1, 1),
                writes := [1] } : Result).totalSize →
      ({ out := ⟨DType.float32, [2], [1, 1], true, 1, Loc.device⟩,
         kernelOut := [1, 1], totalSize := 2, gridDim := (1, 1, 1),
         blockDim := (128, 1, 1), writes := [1] } : Result).kernelOut.getD i 0 =
        clampQ (((⟨DType.float32, [2], [3, 4], true, 0,
                   Loc.device⟩ : Arr).content.getD i 0) * ((1 - 0) / (2 - 0))
                 - (0 * ((1 - 0) / (2 - 0)) - 0))
               (if true then some 0 else none)
               (if true then some 1 else none) :=
  c1_kernel_formula ⟨DType.float32, [2], [3, 4], true, 0, Loc.device⟩
    1 0 2 0 true 1 _ (by constructor <;> simp [Arr.wf, inRangeB])
    (by simp [scale_intensity_range, scaleArr, ensureDevice, ensureF32, truncQ,
              clampQ]
        norm_num [Int.floor_eq_iff])

/-- Claim C2 counterexample: a HOST-resident float64 array, whose dtype can
not be safely cast to float32, is nevertheless accepted: the initial
`cupy.asarray(img, dtype=cupy.float32)` transfer converts it
unconditionally, so the safe-cast check is skipped and no RangeError-class
error is raised, contradicting the claim. -/
theorem c2_host_unsafe_counterexample :
    scale_intensity_range
        (Input.array ⟨DType.float64, [1], [3/2], true, 0, Loc.host⟩)
        1 0 2 0 false 1 =
      Except.ok
        { out := ⟨DType.float64, [1], [3/4], true, 4, Loc.host⟩,
          kernelOut := [3/4], totalSize := 1, gridDim := (1, 1, 1),
          blockDim := (128, 1, 1), writes := [1, 2, 3, 4] } ∧
    scale_intensity_range
        (Input.array ⟨DType.float64, [1], [3/2], true, 0, Loc.host⟩)
        1 0 2 0 false 1 ≠ Except.error Err.rangeError := by
  have h : scale_intensity_range
      (Input.array ⟨DType.float64, [1], [3/2], true, 0, Loc.host⟩)
      1 0 2 0 false 1 =
      Except.ok
        { out := ⟨DType.float64, [1], [3/4], true, 4, Loc.host⟩,
          kernelOut := [3/4], totalSize := 1, gridDim := (1, 1, 1),
          blockDim := (128, 1, 1), writes := [1, 2, 3, 4] } := by
    simp [scale_intensity_range, scaleArr, ensureDevice, ensureF32, truncQ,
          clampQ, castBack]
    norm_num [Int.floor_eq_iff]
  exact ⟨h, by rw [h]; simp⟩

/-- Claim C2 as amended: for every ACCELERATOR-resident input array whose
element type is not 32-bit float and cannot be safely cast to 32-bit
float, scale_intensity_range fails with a RangeError-class cast error
before the kernel launch (host-resident arrays are converted to float32
unconditionally by the initial transfer and undergo no safe-cast check). -/
theorem c2_device_unsafe_cast (a : Arr) (b_max b_min a_max a_min : ℚ)
    (clip : Bool) (fresh : Nat) (hloc : a.loc = Loc.device)
    (hdt : a.dtype ≠ DType.float32) (hcast : canCastF32 a.dtype = false)
    (hrange : a_max - a_min ≠ 0) :
    scale_intensity_range (Input.array a) b_max b_min a_max a_min clip fresh =
      Except.error Err.rangeError := by
  rw [scale_intensity_range, if_neg hrange]
  obtain ⟨dt, sh, ct, cg, ad, lc⟩ := a
  simp only at hloc hdt hcast
  subst hloc
  cases cg <;> simp [scaleArr, ensureDevice, ensureF32, hdt, hcast]

/-- Concrete instantiation of `c2_device_unsafe_cast`: a device float64
array is rejected with the RangeError-class cast error. -/
theorem c2_device_unsafe_cast_witness :
    scale_intensity_range
        (Input.array ⟨DType.float64, [1], [1], true, 0, Loc.device⟩)
        1 0 2 0 false 1 = Except.error Err.rangeError :=
  c2_device_unsafe_cast ⟨DType.float64, [1], [1], true, 0, Loc.device⟩
    1 0 2 0 false 1 rfl (by simp) rfl (by norm_num)

/-- Claim C3: every accepted call returns an array with the same shape, the
same element type and the same memory location (host vs accelerator) as
the input array, regardless of the intermediate float32 compute
representation. -/
theorem c3_shape_dtype_location (a : Arr) (b_max b_min a_max a_min : ℚ)
    (clip : Bool) (fresh : Nat) (r : Result)
    (h : scale_intensity_range (Input.array a) b_max b_min a_max a_min clip
          fresh = Except.ok r) :
    r.out.shape = a.shape ∧ r.out.dtype = a.dtype ∧ r.out.loc = a.loc := by
  obtain ⟨hb, -⟩ := scale_ok_bridge a b_max b_min a_max a_min clip fresh r h
  obtain ⟨h1, h2, h3, -⟩ := scaleArr_ok a b_max b_min a_max a_min clip fresh r hb
  exact ⟨h1, h2, h3⟩

/-- Concrete instantiation of `c3_shape_dtype_location`: a host uint8 array
comes back as a host uint8 array of the same shape, through the float32
working representation. -/
theorem c3_shape_dtype_location_witness :
    ({ out := ⟨DType.uint8, [3], [0, 128, 255], true, 4, Loc.host⟩,
       kernelOut := [0, 128, 255], totalSize := 3, gridDim := (1, 1, 1),
       blockDim := (128, 1, 1), writes := [1, 2, 3, 4] } : Result).out.shape =
        (⟨DType.uint8, [3], [0, 128, 255], true, 0, Loc.host⟩ : Arr).shape ∧
    ({ out := ⟨DType.uint8, [3], [0, 128, 255], true, 4, Loc.host⟩,
       kernelOut := [0, 128, 255], totalSize := 3, gridDim := (1, 1, 1),
       blockDim := (128, 1, 1), writes := [1, 2, 3, 4] } : Result).out.dtype =
        (⟨DType.uint8, [3], [0, 128, 255], true, 0, Loc.host⟩ : Arr).dtype ∧
    ({ out := ⟨DType.uint8, [3], [0, 128, 255], true, 4, Loc.host⟩,
       kernelOut := [0, 128, 255], totalSize := 3, gridDim := (1, 1, 1),
       blockDim := (128, 1, 1), writes := [1, 2, 3, 4] } : Result).out.loc =
        (⟨DType.uint8, [3], [0, 128, 255], true, 0, Loc.host⟩ : Arr).loc :=
  c3_shape_dtype_location ⟨DType.uint8, [3], [0, 128, 255], true, 0, Loc.host⟩
    255 0 255 0 false 1 _
    (by simp [scale_intensity_range, scaleArr, ensureDevice, ensureF32, truncQ,
              clampQ, castBack]
        norm_num [Int.floor_eq_iff])

/-- Claim C4: for every input value (array or not) and every choice of the
other parameters, a_max = a_min makes scale_intensity_range raise the
RangeError-class error; the check is first, before the input is examined,
which is why the conclusion holds uniformly over all inputs. -/
theorem c4_degenerate_range_first (img : Input) (b_max b_min a_max a_min : ℚ)
    (clip : Bool) (fresh : Nat) (h : a_max = a_min) :
    scale_intensity_range img b_max b_min a_max a_min clip fresh =
      Except.error Err.rangeError := by
  unfold scale_intensity_range
  rw [if_pos (by rw [h]; exact sub_self a_min)]

/-- Concrete instantiation of `c4_degenerate_range_first` at a non-array
input with a_max = a_min = 5: the degenerate-range error wins. -/
theorem c4_degenerate_range_first_witness :
    scale_intensity_range Input.nonArray 1 0 5 5 true 0 =
      Except.error Err.rangeError :=
  c4_degenerate_range_first Input.nonArray 1 0 5 5 true 0 rfl

/-- Claim C5 counterexample: a non-array input does NOT always raise the
ConfigError-class error; with a_max = a_min the degenerate-range check
fires first and the call raises the RangeError-class error instead. -/
theorem c5_nonarray_counterexample :
    scale_intensity_range Input.nonArray 1 0 7 7 false 0 =
        Except.error Err.rangeError ∧
    scale_intensity_range Input.nonArray 1 0 7 7 false 0 ≠
        Except.error Err.configError := by
  have h : scale_intensity_range Input.nonArray 1 0 7 7 false 0 =
      Except.error Err.rangeError := by
    unfold scale_intensity_range
    rw [if_pos (sub_self 7)]
  exact ⟨h, by rw [h]; simp⟩

/-- Claim C5 as amended: for every non-array input with a_max distinct from
a_min, scale_intensity_range raises the ConfigError-class error before any
compute; when a_max = a_min the RangeError-class error takes precedence. -/
theorem c5_nonarray_config_error (b_max b_min a_max a_min : ℚ) (clip : Bool)
    (fresh : Nat) (h : a_max ≠ a_min) :
    scale_intensity_range Input.nonArray b_max b_min a_max a_min clip fresh =
      Except.error Err.configError := by
  unfold scale_intensity_range
  rw [if_neg (sub_ne_zero_of_ne h)]

/-- Concrete instantiation of `c5_nonarray_config_error`. -/
theorem c5_nonarray_config_error_witness :
    scale_intensity_range Input.nonArray 1 0 2 0 false 0 =
      Except.error Err.configError :=
  c5_nonarray_config_error 1 0 2 0 false 0 (by norm_num)

/-- Claim C6 counterexample: with clip = true, b_min = -10, b_max = -5 and a
uint8 input, the kernel output -10 is clamped into [-10, -5], but the
rehydration cast back to uint8 turns it into 246, which lies outside
[min(b_min, b_max), max(b_min, b_max)] = [-10, -5]; so not every element
of the returned output lies within the clamp interval. -/
theorem c6_clip_counterexample :
    scale_intensity_range
        (Input.array ⟨DType.uint8, [1], [0], true, 0, Loc.device⟩)
        (-5) (-10) 1 0 true 1 =
      Except.ok
        { out := ⟨DType.uint8, [1], [246], true, 3, Loc.device⟩,
          kernelOut := [-10], totalSize := 1, gridDim := (1, 1, 1),
          blockDim := (128, 1, 1), writes := [1, 2, 3] } ∧
    ¬ ((246 : ℚ) ≤ max (-10 : ℚ) (-5)) := by
  constructor
  · simp [scale_intensity_range, scaleArr, ensureDevice, ensureF32, truncQ,
          clampQ, castBack, canCastF32]
    norm_num [Int.floor_eq_iff]
    rw [show ⌈(-10 : ℚ)⌉ = (-10 : ℤ) by
          rw [show ((-10 : ℚ)) = (((-10 : ℤ) : ℚ)) by norm_num,
              Int.ceil_intCast],
        show ((-10 : ℤ) % 256) = 246 by decide]
    norm_num
  · norm_num

/-- Claim C6 as amended: when clip is true, every element of the float32
kernel output lies within [min(b_min, b_max), max(b_min, b_max)]
inclusive, and so does every element of the returned array whenever the
original element type is float32 (the cast back to a non-float original
type can move values outside the interval). -/
theorem c6_clip_bounds (a : Arr) (b_max b_min a_max a_min : ℚ) (fresh : Nat)
    (r : Result)
    (h : scale_intensity_range (Input.array a) b_max b_min a_max a_min true
          fresh = Except.ok r) :
    (∀ v ∈ r.kernelOut, min b_min b_max ≤ v ∧ v ≤ max b_min b_max) ∧
    (a.dtype = DType.float32 →
      ∀ v ∈ r.out.content, min b_min b_max ≤ v ∧ v ≤ max b_min b_max) := by
  obtain ⟨hb, -⟩ := scale_ok_bridge a b_max b_min a_max a_min true fresh r h
  obtain ⟨-, -, -, -, -, -, hker, hcon, -⟩ :=
    scaleArr_ok a b_max b_min a_max a_min true fresh r hb
  have hm : ∀ v ∈ r.kernelOut, min b_min b_max ≤ v ∧ v ≤ max b_min b_max := by
    intro v hv
    rw [hker] at hv
    simp only [if_pos trivial, List.mem_map] at hv
    obtain ⟨w, -, rfl⟩ := hv
    exact clampQ_mem _ b_min b_max
  refine ⟨hm, fun hf v hv => hm v ?_⟩
  rw [hcon, if_pos hf] at hv
  exact hv

/-- Concrete instantiation of `c6_clip_bounds`: scaling [3, 4] from [0, 2]
to [0, 1] with clip on yields elements inside [0, 1]. -/
theorem c6_clip_bounds_witness :
    (∀ v ∈ ({ out := ⟨DType.float32, [2], [1, 1], true, 1, Loc.device⟩,
              kernelOut := [1, 1], totalSize := 2, gridDim := (1, 1, 1),
              blockDim := (128, 1, 1), writes := [1] } : Result).kernelOut,
        min (0 : ℚ) 1 ≤ v ∧ v ≤ max (0 : ℚ) 1) ∧
    ((⟨DType.float32, [2], [3, 4], true, 0, Loc.device⟩ : Arr).dtype =
        DType.float32 →
      ∀ v ∈ ({ out := ⟨DType.float32, [2], [1, 1], true, 1, Loc.device⟩,
               kernelOut := [1, 1], totalSize := 2, gridDim := (1, 1, 1),
               blockDim := (128, 1, 1), writes := [1] } : Result).out.content,
        min (0 : ℚ) 1 ≤ v ∧ v ≤ max (0 : ℚ) 1) :=
  c6_clip_bounds ⟨DType.float32, [2], [3, 4], true, 0, Loc.device⟩
    1 0 2 0 1 _
    (by simp [scale_intensity_range, scaleArr, ensureDevice, ensureF32, truncQ,
              clampQ]
        norm_num [Int.floor_eq_iff])

/-- Claim C7 (identity law): for every well-formed input array and every
a_min, a_max with a_max distinct from a_min, calling the operation with
b_max := a_max, b_min := a_min and clip = false returns an array
elementwise equal to the input (exactly, in this exact-arithmetic
embedding), because the derived coefficients are x = 1 and y = 0. -/
theorem c7_identity (a : Arr) (a_max a_min : ℚ) (fresh : Nat) (r : Result)
    (hwf : a.wf)
    (h : scale_intensity_range (Input.array a) a_max a_min a_max a_min false
          fresh = Except.ok r) :
    r.out.content = a.content ∧ r.out.shape = a.shape := by
  obtain ⟨hb, hne⟩ := scale_ok_bridge a a_max a_min a_max a_min false fresh r h
  obtain ⟨hsh, -, -, -, -, -, hker, hcon, -⟩ :=
    scaleArr_ok a a_max a_min a_max a_min false fresh r hb
  have hx : (a_max - a_min) / (a_max - a_min) = 1 := div_self hne
  have hfun : ∀ v : ℚ,
      clampQ (v * ((a_max - a_min) / (a_max - a_min))
        - (a_min * ((a_max - a_min) / (a_max - a_min)) - a_min))
        none none = v := by
    intro v
    rw [clampQ_none, hx]
    ring
  have hker2 : r.kernelOut = a.content := by
    rw [hker]
    simp only [Bool.false_eq_true, if_false, hfun]
    exact List.map_id a.content
  have hcon2 : r.out.content = a.content := by
    rw [hcon]
    split_ifs with hdt
    · exact hker2
    · rw [hker2]
      calc a.content.map (castBack a.dtype)
          = a.content.map id :=
            List.map_congr_left (fun q hq => castBack_id _ _ (hwf.2 q hq))
        _ = a.content := List.map_id a.content
  exact ⟨hcon2, hsh⟩

/-- Concrete instantiation of `c7_identity`: a host uint8 array [0, 128,
255] scaled from [0, 255] to [0, 255] comes back unchanged, including
through the cast back to uint8. -/
theorem c7_identity_witness :
    ({ out := ⟨DType.uint8, [3], [0, 128, 255], true, 4, Loc.host⟩,
       kernelOut := [0, 128, 255], totalSize := 3, gridDim := (1, 1, 1),
       blockDim := (128, 1, 1), writes := [1, 2, 3, 4] } : Result).out.content =
      (⟨DType.uint8, [3], [0, 128, 255], true, 0, Loc.host⟩ : Arr).content ∧
    ({ out := ⟨DType.uint8, [3], [0, 128, 255], true, 4, Loc.host⟩,
       kernelOut := [0, 128, 255], totalSize := 3, gridDim := (1, 1, 1),
       blockDim := (128, 1, 1), writes := [1, 2, 3, 4] } : Result).out.shape =
      (⟨DType.uint8, [3], [0, 128, 255], true, 0, Loc.host⟩ : Arr).shape :=
  c7_identity ⟨DType.uint8, [3], [0, 128, 255], true, 0, Loc.host⟩
    255 0 1 _ (by constructor <;> simp [Arr.wf, inRangeB])
    (by simp [scale_intensity_range, scaleArr, ensureDevice, ensureF32, truncQ,
              clampQ, castBack]
        norm_num [Int.floor_eq_iff])

/-- Claim C8: for every accepted input array the launch geometry is
one-dimensional with a fixed thread-block width of 128 and a grid width of
ceil(total_size / 128), where total_size is the product of all shape
dimensions treated as a flat element count. -/
theorem c8_launch_geometry (a : Arr) (b_max b_min a_max a_min : ℚ)
    (clip : Bool) (fresh : Nat) (r : Result)
    (h : scale_intensity_range (Input.array a) b_max b_min a_max a_min clip
          fresh = Except.ok r) :
    r.totalSize = a.shape.prod ∧ r.blockDim = (128, 1, 1) ∧
    r.gridDim = (⌈(a.shape.prod : ℚ) / 128⌉, 1, 1) := by
  obtain ⟨hb, -⟩ := scale_ok_bridge a b_max b_min a_max a_min clip fresh r h
  obtain ⟨-, -, -, h4, h5, h6, -⟩ :=
    scaleArr_ok a b_max b_min a_max a_min clip fresh r hb
  refine ⟨h4, h6, ?_⟩
  rw [h5, gridx_ceil]

/-- Concrete instantiation of `c8_launch_geometry` at the spec's batched
shape (2, 3, 4, 4): total_size = 96, grid width ceil(96/128) = 1. -/
theorem c8_launch_geometry_witness :
    ({ out := ⟨DType.float32, [2, 3, 4, 4], List.replicate 96 0, true, 1,
         Loc.device⟩,
       kernelOut := List.replicate 96 0, totalSize := 96,
       gridDim := (1, 1, 1), blockDim := (128, 1, 1),
       writes := [1] } : Result).totalSize =
      (⟨DType.float32, [2, 3, 4, 4], List.replicate 96 0, true, 0,
        Loc.device⟩ : Arr).shape.prod ∧
    ({ out := ⟨DType.float32, [2, 3, 4, 4], List.replicate 96 0, true, 1,
         Loc.device⟩,
       kernelOut := List.replicate 96 0, totalSize := 96,
       gridDim := (1, 1, 1), blockDim := (128, 1, 1),
       writes := [1] } : Result).blockDim = (128, 1, 1) ∧
    ({ out := ⟨DType.float32, [2, 3, 4, 4], List.replicate 96 0, true, 1,
         Loc.device⟩,
       kernelOut := List.replicate 96 0, totalSize := 96,
       gridDim := (1, 1, 1), blockDim := (128, 1, 1),
       writes := [1] } : Result).gridDim =
      (⌈(((⟨DType.float32, [2, 3, 4, 4], List.replicate 96 0, true, 0,
            Loc.device⟩ : Arr).shape.prod : ℕ) : ℚ) / 128⌉, 1, 1) :=
  c8_launch_geometry
    ⟨DType.float32, [2, 3, 4, 4], List.replicate 96 0, true, 0, Loc.device⟩
    1 0 2 0 false 1 _
    (by simp [scale_intensity_range, scaleArr, ensureDevice, ensureF32, truncQ,
              clampQ]
        norm_num [Int.floor_eq_iff])

/-- Claim C9: the input array is never mutated (no write in the pipeline
targets the input's buffer address) and the returned array is newly
allocated, so it does not alias the input buffer.  `fresh` is the first
unused address, so `a.addr < fresh` says the input buffer pre-exists the
call. -/
theorem c9_no_mutation_no_alias (a : Arr) (b_max b_min a_max a_min : ℚ)
    (clip : Bool) (fresh : Nat) (r : Result) (hfresh : a.addr < fresh)
    (h : scale_intensity_range (Input.array a) b_max b_min a_max a_min clip
          fresh = Except.ok r) :
    a.addr ∉ r.writes ∧ r.out.addr ≠ a.addr := by
  obtain ⟨hb, -⟩ := scale_ok_bridge a b_max b_min a_max a_min clip fresh r h
  obtain ⟨-, -, -, -, -, -, -, -, hw, haddr⟩ :=
    scaleArr_ok a b_max b_min a_max a_min clip fresh r hb
  constructor
  · intro hmem
    have := hw _ hmem
    omega
  · omega

/-- Concrete instantiation of `c9_no_mutation_no_alias`: the input at
address 0 is not written and the output lives at a different address. -/
theorem c9_no_mutation_no_alias_witness :
    (⟨DType.float32, [2], [3, 4], true, 0, Loc.device⟩ : Arr).addr ∉
      ({ out := ⟨DType.float32, [2], [3, 4], true, 1, Loc.device⟩,
         kernelOut := [3, 4], totalSize := 2, gridDim := (1, 1, 1),
         blockDim := (128, 1, 1), writes := [1] } : Result).writes ∧
    ({ out := ⟨DType.float32, [2], [3, 4], true, 1, Loc.device⟩,
       kernelOut := [3, 4], totalSize := 2, gridDim := (1, 1, 1),
       blockDim := (128, 1, 1), writes := [1] } : Result).out.addr ≠
      (⟨DType.float32, [2], [3, 4], true, 0, Loc.device⟩ : Arr).addr :=
  c9_no_mutation_no_alias ⟨DType.float32, [2], [3, 4], true, 0, Loc.device⟩
    2 0 2 0 false 1 _ (by norm_num)
    (by simp [scale_intensity_range, scaleArr, ensureDevice, ensureF32, truncQ,
              clampQ]
        norm_num [Int.floor_eq_iff])

/-- Claim C10: for every otherwise-valid input array with a zero total
element count, the computed grid width is 0, the launch geometry is
invalid, and the call fails with the launch error instead of returning an
empty array. -/
theorem c10_zero_size_launch_error (a : Arr) (b_max b_min a_max a_min : ℚ)
    (clip : Bool) (fresh : Nat) (hz : a.shape.prod = 0)
    (hcast : a.loc = Loc.device → canCastF32 a.dtype = true)
    (hrange : a_max - a_min ≠ 0) :
    scale_intensity_range (Input.array a) b_max b_min a_max a_min clip fresh =
      Except.error Err.launchError := by
  rw [scale_intensity_range, if_neg hrange]
  obtain ⟨dt, sh, ct, cg, ad, lc⟩ := a
  simp only at hz hcast
  have hg : truncQ (((sh.prod : ℚ) - 1) / 128 + 1) ≤ 0 := by
    rw [gridx_ceil, hz]
    norm_num
  by_cases hdt : dt = DType.float32 <;>
    cases lc <;> cases cg <;>
      simp_all [scaleArr, ensureDevice, ensureF32, hg]

/-- Concrete instantiation of `c10_zero_size_launch_error`: a device
float32 array of shape [0, 3] makes the call fail with the launch error. -/
theorem c10_zero_size_launch_error_witness :
    scale_intensity_range
        (Input.array ⟨DType.float32, [0, 3], [], true, 0, Loc.device⟩)
        1 0 2 0 false 1 = Except.error Err.launchError :=
  c10_zero_size_launch_error ⟨DType.float32, [0, 3], [], true, 0, Loc.device⟩
    1 0 2 0 false 1 rfl (fun _ => rfl) (by norm_num)

end CucimScaling
